import Mathlib

/-!
Verification of `hepcrawl/tohep.py`: conversion of crawled items between the
internal "hepcrawl" record format and the Inspire "HEP" record format.

Python records are loosely-typed dictionaries.  We embed them as association
lists from string keys to a `Val` type covering the value shapes the module
manipulates (strings, integers, lists, nested dictionaries).  Dictionary
reads (`d[k]` / `d.get(k)`), writes, and `pop` are embedded as `objGet`,
`objSet`, `objPop`; fallible Python code (KeyError, ValueError, TypeError,
IndexError, and the module's own `UnknownItemFormat`) is embedded in
`Except Err`.
-/

set_option maxHeartbeats 1000000

namespace Tohep

/-- A Python value as used by `tohep.py`: strings, integers, lists and
dictionaries with string keys. -/
inductive Val where
  | str (s : String)
  | int (n : Int)
  | list (l : List Val)
  | obj (fields : List (String × Val))
deriving Repr

/-- A Python dictionary with string keys, as an association list (keys are
unique in any state reachable from real Python dicts). -/
abbrev Record := List (String × Val)

/-- The Python exceptions that the embedded code can raise. -/
inductive Err where
  | keyError (key : String)
  | valueError
  | typeError
  | indexError
  | unknownItemFormat (msg : String)
deriving Repr, DecidableEq

/-- `d.get(k)` / `k in d`: first binding of the key, if any. -/
def objGet : List (String × Val) → String → Option Val
  | [], _ => none
  | (k, v) :: rest, key => if k == key then some v else objGet rest key

/-- `d[k] = v`: replace the first binding of the key, or append a new one. -/
def objSet : List (String × Val) → String → Val → List (String × Val)
  | [], key, v => [(key, v)]
  | (k, w) :: rest, key, v =>
    if k == key then (k, v) :: rest else (k, w) :: objSet rest key v

/-- `d.pop(k, default)` (dropping the returned value): remove the key. -/
def objPop (r : List (String × Val)) (key : String) : List (String × Val) :=
  r.filter (fun p => p.1 != key)

/-- `d.pop(k, '')`: the value (defaulting to the empty string) together with
the dictionary without the key. -/
def popD (r : Record) (key : String) : Val × Record :=
  ((objGet r key).getD (.str ""), objPop r key)

/-- Python truthiness of an optional value (`None` for an absent key). -/
def truthy : Option Val → Bool
  | none => false
  | some (.str s) => s != ""
  | some (.int n) => n != 0
  | some (.list l) => !l.isEmpty
  | some (.obj fs) => !fs.isEmpty

/-- Python `str.strip()`: drop surrounding whitespace (over the character
list, so that it evaluates inside proofs). -/
def pyStrip (s : String) : String :=
  String.mk
    (((s.data.dropWhile Char.isWhitespace).reverse.dropWhile
      Char.isWhitespace).reverse)

/-- Python `str.lower()` (ASCII, per character). -/
def pyLower (s : String) : String :=
  String.mk (s.data.map Char.toLower)

/-- Python `str.upper()` (ASCII, per character). -/
def pyUpper (s : String) : String :=
  String.mk (s.data.map Char.toUpper)

/-- Python `int(s)` on a string: optional surrounding whitespace, an optional
sign, then at least one decimal digit. -/
def parseIntStr (s : String) : Option Int :=
  let t := (pyStrip s).data
  let signed :=
    match t with
    | '-' :: rest => (true, rest)
    | '+' :: rest => (false, rest)
    | _ => (false, t)
  if signed.2.isEmpty || !(signed.2.all Char.isDigit) then none
  else
    let n : Nat := signed.2.foldl (fun acc c => acc * 10 + (c.toNat - 48)) 0
    if signed.1 then some (-(n : Int)) else some (n : Int)

/-- Python `int(v)`: identity on integers, string parsing on strings
(ValueError on failure), TypeError otherwise. -/
def pyInt : Val → Except Err Int
  | .int n => pure n
  | .str s =>
    match parseIntStr s with
    | some n => pure n
    | none => throw Err.valueError
  | _ => throw Err.typeError

/-- Python `int(v)` where every failure is caught (`try ... except`). -/
def pyIntOpt : Val → Option Int
  | .int n => some n
  | .str s => parseIntStr s
  | _ => none

section DictLemmas

theorem objGet_objSet_self (r : Record) (k : String) (v : Val) :
    objGet (objSet r k v) k = some v := by
  induction r with
  | nil => simp [objGet, objSet]
  | cons p rest ih =>
    by_cases h : p.1 == k
    · simp [objGet, objSet, h]
    · simpa [objGet, objSet, h] using ih

theorem objGet_objSet_ne (r : Record) (k k' : String) (v : Val) (h : k' ≠ k) :
    objGet (objSet r k v) k' = objGet r k' := by
  have hkk : (k == k') = false := beq_eq_false_iff_ne.mpr (Ne.symm h)
  induction r with
  | nil =>
    simp [objGet, objSet, hkk]
  | cons p rest ih =>
    by_cases hk : p.1 == k
    · have hk1 : p.1 = k := beq_iff_eq.mp hk
      have hk' : (p.1 == k') = false := by rw [hk1]; exact hkk
      simp [objGet, objSet, hk, hk']
    · by_cases hk2 : p.1 == k'
      · simp [objGet, objSet, hk, hk2]
      · simpa [objGet, objSet, hk, hk2] using ih

theorem objGet_objPop_self (r : Record) (k : String) :
    objGet (objPop r k) k = none := by
  induction r with
  | nil => simp [objGet, objPop]
  | cons p rest ih =>
    by_cases h : p.1 == k
    · simpa [objPop, List.filter_cons, bne, h] using ih
    · simpa [objGet, objPop, List.filter_cons, bne, h] using ih

theorem objGet_objPop_ne (r : Record) (k k' : String) (h : k' ≠ k) :
    objGet (objPop r k) k' = objGet r k' := by
  have hkk : (k == k') = false := beq_eq_false_iff_ne.mpr (Ne.symm h)
  induction r with
  | nil => simp [objGet, objPop]
  | cons p rest ih =>
    by_cases hk : p.1 == k
    · have hk1 : p.1 = k := beq_iff_eq.mp hk
      have hk' : (p.1 == k') = false := by rw [hk1]; exact hkk
      simpa [objGet, objPop, List.filter_cons, bne, hk, hk'] using ih
    · by_cases hk2 : p.1 == k'
      · simp [objGet, objPop, List.filter_cons, bne, hk, hk2]
      · simpa [objGet, objPop, List.filter_cons, bne, hk, hk2] using ih

end DictLemmas

/-! ## Field Normalizer: `_has_publication_info` and `_normalize_hepcrawl_record` -/

/-- `_has_publication_info(item)` from `tohep.py`: the or-chain of the nine
publication trigger fields (used in boolean position, so embedded as the
boolean or of their truthiness). -/
def has_publication_info (item : Record) : Bool :=
  truthy (objGet item "pubinfo_freetext") ||
    truthy (objGet item "journal_volume") ||
    truthy (objGet item "journal_title") ||
    truthy (objGet item "journal_year") ||
    truthy (objGet item "journal_issue") ||
    truthy (objGet item "journal_fpage") ||
    truthy (objGet item "journal_lpage") ||
    truthy (objGet item "journal_artid") ||
    truthy (objGet item "journal_doctype")

/-- `_remove_fields(item, keys)` from `tohep.py`: pop each key, no error when
absent. -/
def remove_fields (item : Record) (keys : List String) : Record :=
  keys.foldl objPop item

/-- First block of `_normalize_hepcrawl_record`:
`if 'related_article_doi' in item: item['dois'] += item.pop('related_article_doi', [])`.
Reading `item['dois']` raises KeyError when the key is absent; `+=` requires
both sides to be sequences of the same kind (list/list concatenation or
string/string concatenation; any other combination is a TypeError). -/
def mergeRelatedArticleDoi (item : Record) : Except Err Record :=
  if (objGet item "related_article_doi").isSome then
    match objGet item "dois" with
    | none => throw (Err.keyError "dois")
    | some dois =>
      match dois, (objGet item "related_article_doi").getD (.list []) with
      | .list ds, .list rs =>
        pure (objSet (objPop item "related_article_doi") "dois" (.list (ds ++ rs)))
      | .str a, .str b =>
        pure (objSet (objPop item "related_article_doi") "dois" (.str (a ++ b)))
      | _, _ => throw Err.typeError
  else pure item

/-- Second block of `_normalize_hepcrawl_record`: the unconditional wrapping of
the flat `title`/`subtitle`, `abstract`, `date_published` and the four
copyright fields into single-element `titles`, `abstracts`, `imprints` and
`copyright` lists (each popped with default `''`). -/
def wrapFlatFields (item : Record) (source : String) : Record :=
  let (title, item) := popD item "title"
  let (subtitle, item) := popD item "subtitle"
  let item := objSet item "titles"
    (.list [.obj [("title", title), ("subtitle", subtitle), ("source", .str source)]])
  let (abstract, item) := popD item "abstract"
  let item := objSet item "abstracts"
    (.list [.obj [("value", abstract), ("source", .str source)]])
  let (datePublished, item) := popD item "date_published"
  let item := objSet item "imprints" (.list [.obj [("date", datePublished)]])
  let (ch, item) := popD item "copyright_holder"
  let (cy, item) := popD item "copyright_year"
  let (cs, item) := popD item "copyright_statement"
  let (cm, item) := popD item "copyright_material"
  objSet item "copyright"
    (.list [.obj [("holder", ch), ("year", cy), ("statement", cs), ("material", cm)]])

/-- Third block of `_normalize_hepcrawl_record`: when `_has_publication_info`
holds, build the single-element `publication_info` list from the popped
journal fields, and when `item.get('journal_year')` is truthy additionally set
`year` to `int(item.pop('journal_year'))` (which raises ValueError on an
unparseable string). -/
def buildPublicationInfo (item : Record) : Except Err Record :=
  if has_publication_info item then
    let (jt, item) := popD item "journal_title"
    let (jv, item) := popD item "journal_volume"
    let (ji, item) := popD item "journal_issue"
    let (ja, item) := popD item "journal_artid"
    let (jf, item) := popD item "journal_fpage"
    let (jl, item) := popD item "journal_lpage"
    let (jd, item) := popD item "journal_doctype"
    let (pf, item) := popD item "pubinfo_freetext"
    let (pm, item) := popD item "pubinfo_material"
    let pubObj : List (String × Val) :=
      [("journal_title", jt), ("journal_volume", jv), ("journal_issue", ji),
       ("artid", ja), ("page_start", jf), ("page_end", jl), ("note", jd),
       ("pubinfo_freetext", pf), ("pubinfo_material", pm)]
    if truthy (objGet item "journal_year") then do
      let y ← pyInt ((objGet item "journal_year").getD (.str ""))
      let item := objPop item "journal_year"
      pure (objSet item "publication_info" (.list [.obj (objSet pubObj "year" (.int y))]))
    else
      pure (objSet item "publication_info" (.list [.obj pubObj]))
  else pure item

/-- The keys removed by the final `_remove_fields` call of
`_normalize_hepcrawl_record`. -/
def journalKeys : List String :=
  ["journal_title", "journal_volume", "journal_year", "journal_issue",
   "journal_fpage", "journal_lpage", "journal_doctype", "journal_artid",
   "pubinfo_freetext", "pubinfo_material"]

/-- `_normalize_hepcrawl_record(item, source)` from `tohep.py`: the sequential
composition of its four blocks. -/
def normalize_hepcrawl_record (item : Record) (source : String) :
    Except Err Record := do
  let item ← mergeRelatedArticleDoi item
  let item := wrapFlatFields item source
  let item ← buildPublicationInfo item
  pure (remove_fields item journalKeys)

/-! ## File-Attachment Patcher: `_get_updated_fft_fields` and `hep_to_hep` -/

/-- A retrieved file descriptor (`RecordFile`): a `name` and a resolved
`path`. -/
structure RecordFile where
  name : String
  path : String
deriving Repr, DecidableEq

/-- `os.path.basename(p)` on POSIX: the part of the path after the last
slash (over the character list, so that it evaluates inside proofs). -/
def basename (p : String) : String :=
  String.mk ((p.data.reverse.takeWhile (fun c => c != '/')).reverse)

/-- The `record_files_index` dict comprehension of `_get_updated_fft_fields`:
name-to-path lookup in which a later file with the same name overwrites an
earlier one. -/
def recordFilesIndex (record_files : List RecordFile) (name : String) :
    Option String :=
  (record_files.reverse.find? (fun f => f.name == name)).map (fun f => f.path)

/-- `_get_updated_fft_fields(current_fft_fields, record_files)` from
`tohep.py`: for each fft field (a dict with at least a string `path`), keep it
with `path` replaced by the indexed path when the basename of its path is in
the index, drop it otherwise.  Reading `fft_field['path']` raises KeyError on
a missing key; non-dict entries and non-string paths are TypeErrors. -/
def get_updated_fft_fields (current_fft_fields : List Val)
    (record_files : List RecordFile) : Except Err (List Val) :=
  match current_fft_fields with
  | [] => pure []
  | f :: rest => do
    let fs ← match f with
      | .obj fs => pure fs
      | _ => throw Err.typeError
    let p ← match objGet fs "path" with
      | some v => pure v
      | none => throw (Err.keyError "path")
    let ps ← match p with
      | .str s => pure s
      | _ => throw Err.typeError
    let tail ← get_updated_fft_fields rest record_files
    match recordFilesIndex record_files (basename ps) with
    | some newPath => pure (Val.obj (objSet fs "path" (.str newPath)) :: tail)
    | none => pure tail

/-- `hep_to_hep(hep_record, record_files)` from `tohep.py`: when
`record_files` is non-empty, replace `hep_record['_fft']` (KeyError if absent,
TypeError if not a list) with the patched fft fields; otherwise return the
record unchanged. -/
def hep_to_hep (hep_record : Record) (record_files : List RecordFile) :
    Except Err Record :=
  if record_files.isEmpty then pure hep_record
  else do
    let fftVal ← match objGet hep_record "_fft" with
      | some v => pure v
      | none => throw (Err.keyError "_fft")
    let fft ← match fftVal with
      | .list l => pure l
      | _ => throw Err.typeError
    let newFft ← get_updated_fft_fields fft record_files
    pure (objSet hep_record "_fft" (.list newFft))

/-! ## The external Builder capability

`LiteratureBuilder` comes from `inspire_schemas`, outside this repository.
Modelled from the spec: §6 describes it as a set of per-field `add_*`
operations and boolean setters over an accumulating record, with
`validate_record` as external schema validation.  We model the accumulating
record as the `Builder` structure below, each `add_*` as an append/update of
the corresponding field, and `validate_record` as the identity commit point
(the schema itself is an external contract).  Its `add_acquisition_source`
stores its `date` argument under the `datetime` key of the
`acquisition_source` sub-object, which is the key `hepcrawl_to_hep` reads
back. -/

/-- The acquisition-source values held by the Builder: `method`, the value
stored under `datetime`, `source` and `submission_number`. -/
structure BuilderAcquisitionSource where
  method : Val
  date : Val
  source : Val
  submission_number : Val

/-- Modelled from the spec: the accumulating record of the external
`LiteratureBuilder` capability, restricted to the fields `tohep.py`
touches. -/
structure Builder where
  source : Val
  authors : List (Val × List Val) := []
  titles : List (Option Val × Option Val) := []
  abstracts : List (Option Val × Option Val) := []
  arxiv_eprints : List (Option Val × Option Val) := []
  dois : List (Option Val × Option Val) := []
  public_notes : List (Option Val × Option Val) := []
  licenses : List (Option Val × Option Val × Option Val) := []
  collaborations : List (Option Val) := []
  imprint_dates : List (Option Val) := []
  copyrights : List (Option Val × Option Val × Option Val) := []
  preprint_date : Option Val := none
  acquisition_source : Option BuilderAcquisitionSource := none
  number_of_pages : Option Int := none
  citeable : Option Bool := none
  core : Option Bool := none
  refereed : Option Bool := none
  withdrawn : Option Bool := none
  publication_types : List String := []
  special_collections : List String := []
  document_types : List String := []
  publication_info : List (List (String × Option Val)) := []
  report_numbers : List (Option Val × Option Val) := []

/-! ## Record Builder Adapter: `hepcrawl_to_hep` -/

/-- `v` must be a dict (`v[key]` / `v.get(key)` on a non-dict is a
TypeError/AttributeError, both fatal). -/
def asObjFields : Val → Except Err (List (String × Val))
  | .obj fs => pure fs
  | _ => throw Err.typeError

/-- `fs[key]`: direct indexing, KeyError when absent. -/
def requireKey (fs : List (String × Val)) (key : String) : Except Err Val :=
  match objGet fs key with
  | some v => pure v
  | none => throw (Err.keyError key)

/-- `crawler_record.get(key, [])` used as a loop source: absent means the
empty list; a present non-list value makes the loop body fail (Python would
iterate other iterables and fail indexing their elements). -/
def getListField (r : Record) (key : String) : Except Err (List Val) :=
  match objGet r key with
  | none => pure []
  | some (.list l) => pure l
  | some _ => throw Err.typeError

/-- `_filter_affiliation(affiliations)` from `tohep.py`: keep
`affilation.get('value')` for the entries whose `value` is truthy. -/
def filter_affiliation : List Val → Except Err (List Val)
  | [] => pure []
  | a :: rest => do
    let fs ← asObjFields a
    let tail ← filter_affiliation rest
    match objGet fs "value" with
    | some v => if truthy (some v) then pure (v :: tail) else pure tail
    | none => pure tail

/-- Fold a fallible per-element Builder update over a list, in order. -/
def foldBuilder (f : Builder → Val → Except Err Builder) (b : Builder) :
    List Val → Except Err Builder
  | [] => pure b
  | x :: xs => do foldBuilder f (← f b x) xs

/-- One iteration of the `authors` loop: `author['full_name']` and
`author['affiliations']` by direct indexing, affiliations filtered by
`_filter_affiliation`. -/
def addAuthor (b : Builder) (v : Val) : Except Err Builder := do
  let fs ← asObjFields v
  let fullName ← requireKey fs "full_name"
  let affsVal ← requireKey fs "affiliations"
  let affs ← match affsVal with
    | .list l => pure l
    | _ => throw Err.typeError
  let filtered ← filter_affiliation affs
  pure { b with authors := b.authors ++ [(fullName, filtered)] }

/-- One iteration of the `titles` loop (`title.get('title')`,
`title.get('source')`). -/
def addTitle (b : Builder) (v : Val) : Except Err Builder := do
  let fs ← asObjFields v
  pure { b with titles := b.titles ++ [(objGet fs "title", objGet fs "source")] }

/-- One iteration of the `abstracts` loop. -/
def addAbstract (b : Builder) (v : Val) : Except Err Builder := do
  let fs ← asObjFields v
  pure { b with abstracts := b.abstracts ++ [(objGet fs "value", objGet fs "source")] }

/-- One iteration of the `arxiv_eprints` loop. -/
def addArxivEprint (b : Builder) (v : Val) : Except Err Builder := do
  let fs ← asObjFields v
  pure { b with arxiv_eprints := b.arxiv_eprints ++ [(objGet fs "value", objGet fs "categories")] }

/-- One iteration of the `dois` loop. -/
def addDoi (b : Builder) (v : Val) : Except Err Builder := do
  let fs ← asObjFields v
  pure { b with dois := b.dois ++ [(objGet fs "value", objGet fs "material")] }

/-- One iteration of the `public_notes` loop. -/
def addPublicNote (b : Builder) (v : Val) : Except Err Builder := do
  let fs ← asObjFields v
  pure { b with public_notes := b.public_notes ++ [(objGet fs "value", objGet fs "source")] }

/-- One iteration of the `license` loop. -/
def addLicense (b : Builder) (v : Val) : Except Err Builder := do
  let fs ← asObjFields v
  pure { b with licenses :=
    b.licenses ++ [(objGet fs "url", objGet fs "license", objGet fs "material")] }

/-- One iteration of the `collaborations` loop. -/
def addCollaboration (b : Builder) (v : Val) : Except Err Builder := do
  let fs ← asObjFields v
  pure { b with collaborations := b.collaborations ++ [objGet fs "value"] }

/-- One iteration of the `imprints` loop. -/
def addImprintDate (b : Builder) (v : Val) : Except Err Builder := do
  let fs ← asObjFields v
  pure { b with imprint_dates := b.imprint_dates ++ [objGet fs "date"] }

/-- One iteration of the `copyright` loop. -/
def addCopyright (b : Builder) (v : Val) : Except Err Builder := do
  let fs ← asObjFields v
  pure { b with copyrights :=
    b.copyrights ++ [(objGet fs "holder", objGet fs "material", objGet fs "statement")] }

/-- One iteration of the `report_numbers` loop. -/
def addReportNumber (b : Builder) (v : Val) : Except Err Builder := do
  let fs ← asObjFields v
  pure { b with report_numbers := b.report_numbers ++ [(objGet fs "value", objGet fs "source")] }

/-- The `page_nr` best-effort parse:
`int(crawler_record.get('page_nr', [])[0])` under
`except (TypeError, ValueError, IndexError)`.  Every failure of those three
kinds yields no page count; only `dict[0]` would escape as an uncaught
KeyError. -/
def pageNr : Option Val → Except Err (Option Int)
  | none => pure none
  | some (.list (x :: _)) => pure (pyIntOpt x)
  | some (.list []) => pure none
  | some (.str s) =>
    match s.data with
    | [] => pure none
    | c :: _ => pure (pyIntOpt (.str (String.mk [c])))
  | some (.int _) => pure none
  | some (.obj _) => throw (Err.keyError "0")

/-- The fixed `publication_types` list of `hepcrawl_to_hep`. -/
def publication_types_list : List String :=
  ["introductory", "lectures", "review"]

/-- The fixed `special_collections` list of `hepcrawl_to_hep`. -/
def special_collections_list : List String :=
  ["cdf-internal-note", "cdf-note", "cds", "d0-internal-note",
   "d0-preliminary-note", "h1-internal-note", "h1-preliminary-note",
   "halhidden", "hephidden", "hermes-internal-note", "larsoft-internal-note",
   "larsoft-note", "zeus-internal-note", "zeus-preliminary-note"]

/-- The fixed `document_types` list of `hepcrawl_to_hep`. -/
def document_types_list : List String :=
  ["book", "note", "report", "proceedings", "thesis"]

/-- One iteration of the collections loop of `hepcrawl_to_hep`:
`collection['primary'].strip().lower()` classified through the if/elif
chain, threading the `added_doc_type` flag. -/
def classifyCollection (b : Builder) (added_doc_type : Bool) (v : Val) :
    Except Err (Builder × Bool) := do
  let fs ← asObjFields v
  let primary ← requireKey fs "primary"
  let s ← match primary with
    | .str s => pure s
    | _ => throw Err.typeError
  let collection := pyLower (pyStrip s)
  if collection == "arxiv" then pure (b, added_doc_type)
  else if collection == "citeable" then
    pure ({ b with citeable := some true }, added_doc_type)
  else if collection == "core" then
    pure ({ b with core := some true }, added_doc_type)
  else if collection == "noncore" then
    pure ({ b with core := some false }, added_doc_type)
  else if collection == "published" then
    pure ({ b with refereed := some true }, added_doc_type)
  else if collection == "withdrawn" then
    pure ({ b with withdrawn := some true }, added_doc_type)
  else if collection ∈ publication_types_list then
    pure ({ b with publication_types := b.publication_types ++ [collection] },
      added_doc_type)
  else if collection ∈ special_collections_list then
    pure ({ b with special_collections :=
      b.special_collections ++ [pyUpper collection] }, added_doc_type)
  else if collection == "bookchapter" then
    pure ({ b with document_types := b.document_types ++ ["book chapter"] }, true)
  else if collection == "conferencepaper" then
    pure ({ b with document_types := b.document_types ++ ["conference paper"] }, true)
  else if collection ∈ document_types_list then
    pure ({ b with document_types := b.document_types ++ [collection] }, true)
  else pure (b, added_doc_type)

/-- The collections loop, threading the `added_doc_type` flag. -/
def classifyCollections (b : Builder) (added_doc_type : Bool) :
    List Val → Except Err (Builder × Bool)
  | [] => pure (b, added_doc_type)
  | c :: cs => do
    let (b, added) ← classifyCollection b added_doc_type c
    classifyCollections b added cs

/-- The collections loop of `hepcrawl_to_hep` followed by the `'article'`
document-type fallback, fired exactly when `added_doc_type` stayed false. -/
def processCollections (b : Builder) (cols : List Val) : Except Err Builder := do
  let (b, added) ← classifyCollections b false cols
  if added then pure b
  else pure { b with document_types := b.document_types ++ ["article"] }

/-- The `_pub_info = crawler_record.get('publication_info', [{}])[0]` read:
the default is the dict `{}`; an explicit empty list raises IndexError; a
non-list is a TypeError. -/
def pubInfoFields (r : Record) : Except Err (List (String × Val))
  := match objGet r "publication_info" with
  | none => pure []
  | some (.list (x :: _)) => asObjFields x
  | some (.list []) => throw Err.indexError
  | some _ => throw Err.typeError

/-- `hepcrawl_to_hep(crawler_record)` from `tohep.py`: the full Record
Builder Adapter.  The Builder is instantiated from
`crawler_record['acquisition_source']['source']` (both reads direct), each
repeated-entity list is folded in source order, the acquisition source is
re-applied by direct indexing of `method`, `datetime`, `source` and
`submission_number`, the page count is best-effort, the collections are
classified with the article fallback, the first `publication_info` element is
added, and `validate_record` (external schema validation) is the final commit
point, modelled as the identity. -/
def hepcrawl_to_hep (crawler_record : Record) : Except Err Builder := do
  let acqVal ← requireKey crawler_record "acquisition_source"
  let acqFs ← asObjFields acqVal
  let builderSource ← requireKey acqFs "source"
  let b : Builder := { source := builderSource }
  let b ← foldBuilder addAuthor b (← getListField crawler_record "authors")
  let b ← foldBuilder addTitle b (← getListField crawler_record "titles")
  let b ← foldBuilder addAbstract b (← getListField crawler_record "abstracts")
  let b ← foldBuilder addArxivEprint b (← getListField crawler_record "arxiv_eprints")
  let b ← foldBuilder addDoi b (← getListField crawler_record "dois")
  let b ← foldBuilder addPublicNote b (← getListField crawler_record "public_notes")
  let b ← foldBuilder addLicense b (← getListField crawler_record "license")
  let b ← foldBuilder addCollaboration b (← getListField crawler_record "collaborations")
  let b ← foldBuilder addImprintDate b (← getListField crawler_record "imprints")
  let b ← foldBuilder addCopyright b (← getListField crawler_record "copyright")
  let b := { b with preprint_date := objGet crawler_record "preprint_date" }
  let acqFs2 ← match objGet crawler_record "acquisition_source" with
    | none => pure ([] : List (String × Val))
    | some (.obj fs) => pure fs
    | some _ => throw Err.typeError
  let method ← requireKey acqFs2 "method"
  let date ← requireKey acqFs2 "datetime"
  let source2 ← requireKey acqFs2 "source"
  let submissionNumber ← requireKey acqFs2 "submission_number"
  let b := { b with
    acquisition_source :=
      some (BuilderAcquisitionSource.mk method date source2 submissionNumber) }
  let pages ← pageNr (objGet crawler_record "page_nr")
  let b := { b with number_of_pages := pages }
  let b ← processCollections b (← getListField crawler_record "collections")
  let pubFs ← pubInfoFields crawler_record
  let b := { b with publication_info := b.publication_info ++
    [[("year", objGet pubFs "year"), ("artid", objGet pubFs "artid"),
      ("page_end", objGet pubFs "page_end"), ("page_start", objGet pubFs "page_start"),
      ("journal_issue", objGet pubFs "journal_issue"),
      ("journal_title", objGet pubFs "journal_title"),
      ("journal_volume", objGet pubFs "journal_volume"),
      ("pubinfo_freetext", objGet pubFs "pubinfo_freetext"),
      ("material", objGet pubFs "pubinfo_material")]] }
  let b ← foldBuilder addReportNumber b (← getListField crawler_record "report_numbers")
  pure b

/-! ## Conversion Dispatcher: `item_to_hep` -/

/-- A `ParsedItem`: its record, its declared format tag and its attached
files. -/
structure ParsedItem where
  record : Record
  record_format : String
  record_files : List RecordFile

/-- The result of a conversion: a patched HEP record (hep path) or a Builder
record (hepcrawl path). -/
inductive HepOutput where
  | patched (record : Record)
  | built (builder : Builder)

/-- Modelled from the spec: the `acquisition_source` sub-object that the
external Builder's `add_acquisition_source` produces from the Dispatcher's
call with `source`, `method`, `date` and `submission_number` — the date is
stored under the `datetime` key (the key the adapter reads back). -/
def mkAcquisitionSourceVal (source method date submission_number : String) : Val :=
  .obj [("datetime", .str date), ("method", .str method),
        ("source", .str source), ("submission_number", .str submission_number)]

/-- Line `item.record['acquisition_source'] = builder.record['acquisition_source']`
of `item_to_hep`: the stamp written before the format dispatch.  `now` stands
for `datetime.datetime.now().isoformat()` and `submission_number` for
`os.environ.get('SCRAPY_JOB', '')`; the method passed by the source is the
literal `'hepcrawl'`. -/
def stampAcquisitionSource (record : Record) (source now submission_number : String) :
    Record :=
  objSet record "acquisition_source"
    (mkAcquisitionSourceVal source "hepcrawl" now submission_number)

/-- The format dispatch of `item_to_hep`, applied to the already-stamped
record. -/
def dispatchFormat (record_format : String) (record : Record)
    (record_files : List RecordFile) (source : String) : Except Err HepOutput :=
  if record_format == "hep" then
    (hep_to_hep record record_files).map .patched
  else if record_format == "hepcrawl" then do
    let record ← normalize_hepcrawl_record record source
    (hepcrawl_to_hep record).map .built
  else
    throw (Err.unknownItemFormat ("Unknown ParsedItem::" ++ record_format))

/-- `item_to_hep(item, source)` from `tohep.py`: stamp the acquisition source
onto the item's record, then dispatch on `item.record_format`.  `now` is the
processing timestamp and `scrapy_job` the optional `SCRAPY_JOB` environment
value, both read outside the pure core. -/
def item_to_hep (item : ParsedItem) (source now : String)
    (scrapy_job : Option String) : Except Err HepOutput :=
  dispatchFormat item.record_format
    (stampAcquisitionSource item.record source now (scrapy_job.getD ""))
    item.record_files source

/-! ## Lemmas about the normalizer blocks -/

theorem except_bind_ok {α β : Type} (a : α) (f : α → Except Err β) :
    (Except.ok a : Except Err α) >>= f = f a := rfl

theorem except_bind_error {α β : Type} (e : Err) (f : α → Except Err β) :
    (Except.error e : Except Err α) >>= f = .error e := rfl

theorem except_pure_eq {α : Type} (a : α) : (pure a : Except Err α) = .ok a := rfl

theorem except_throw_eq {α : Type} (e : Err) :
    (throw e : Except Err α) = .error e := rfl

theorem objGet_remove_fields (ks : List String) (r : Record) (k : String) :
    objGet (remove_fields r ks) k = if k ∈ ks then none else objGet r k := by
  induction ks generalizing r with
  | nil => simp [remove_fields]
  | cons k0 ks ih =>
    have hstep : remove_fields r (k0 :: ks) = remove_fields (objPop r k0) ks := by
      simp [remove_fields]
    rw [hstep, ih]
    by_cases hk : k = k0
    · subst hk
      by_cases hmem : k ∈ ks <;> simp [hmem, objGet_objPop_self]
    · simp [hk, objGet_objPop_ne r k0 k hk]

/-- `mergeRelatedArticleDoi` raises only KeyError or TypeError, never
ValueError. -/
theorem mergeRelatedArticleDoi_no_valueError (item : Record) :
    mergeRelatedArticleDoi item ≠ .error .valueError := by
  unfold mergeRelatedArticleDoi
  split
  · split
    · simp [except_throw_eq]
    · split <;> simp [except_pure_eq, except_throw_eq]
  · simp [except_pure_eq]

/-- When `related_article_doi` is absent the first block is the identity. -/
theorem mergeRelatedArticleDoi_absent (item : Record)
    (h : objGet item "related_article_doi" = none) :
    mergeRelatedArticleDoi item = .ok item := by
  unfold mergeRelatedArticleDoi
  simp [h, except_pure_eq]

/-- When `related_article_doi` is present but `dois` is absent the first
block raises `KeyError('dois')`. -/
theorem mergeRelatedArticleDoi_keyError (item : Record)
    (hrad : (objGet item "related_article_doi").isSome)
    (hdois : objGet item "dois" = none) :
    mergeRelatedArticleDoi item = .error (.keyError "dois") := by
  unfold mergeRelatedArticleDoi
  simp [hrad, hdois, except_throw_eq]

/-- When both are lists the first block concatenates them under `dois` and
removes `related_article_doi`. -/
theorem mergeRelatedArticleDoi_lists (item : Record) (ds rs : List Val)
    (hdois : objGet item "dois" = some (.list ds))
    (hrad : objGet item "related_article_doi" = some (.list rs)) :
    mergeRelatedArticleDoi item =
      .ok (objSet (objPop item "related_article_doi") "dois" (.list (ds ++ rs))) := by
  unfold mergeRelatedArticleDoi
  simp [hdois, hrad, except_pure_eq]

/-- The first block only touches `dois` and `related_article_doi`. -/
theorem mergeRelatedArticleDoi_get (item item1 : Record) (k : String)
    (hok : mergeRelatedArticleDoi item = .ok item1)
    (h1 : k ≠ "dois") (h2 : k ≠ "related_article_doi") :
    objGet item1 k = objGet item k := by
  unfold mergeRelatedArticleDoi at hok
  split at hok
  · split at hok
    · simp at hok
    · split at hok
      · simp only [pure, Except.pure, Except.ok.injEq] at hok
        subst hok
        rw [objGet_objSet_ne _ _ _ _ h1, objGet_objPop_ne _ _ _ h2]
      · simp only [pure, Except.pure, Except.ok.injEq] at hok
        subst hok
        rw [objGet_objSet_ne _ _ _ _ h1, objGet_objPop_ne _ _ _ h2]
      · simp at hok
  · simp only [pure, Except.pure, Except.ok.injEq] at hok
    subst hok
    rfl

/-- The keys the second block pops or writes. -/
def wrapTouched : List String :=
  ["title", "subtitle", "abstract", "date_published", "copyright_holder",
   "copyright_year", "copyright_statement", "copyright_material",
   "titles", "abstracts", "imprints", "copyright"]

/-- The second block only touches the flat fields it pops and the four
wrapped lists it writes. -/
theorem wrapFlatFields_get (item : Record) (source : String) (k : String)
    (h : k ∉ wrapTouched) :
    objGet (wrapFlatFields item source) k = objGet item k := by
  simp only [wrapTouched, List.mem_cons, List.not_mem_nil, or_false, not_or] at h
  obtain ⟨h1, h2, h3, h4, h5, h6, h7, h8, h9, h10, h11, h12⟩ := h
  simp (disch := assumption) only [wrapFlatFields, popD, objGet_objSet_ne,
    objGet_objPop_ne]

/-- The second block always writes single-element `titles`, `abstracts`,
`imprints` and `copyright` lists. -/
theorem wrapFlatFields_sets (item : Record) (source : String) :
    (∃ t, objGet (wrapFlatFields item source) "titles" = some (.list [t])) ∧
    (∃ a, objGet (wrapFlatFields item source) "abstracts" = some (.list [a])) ∧
    (∃ i, objGet (wrapFlatFields item source) "imprints" = some (.list [i])) ∧
    (∃ c, objGet (wrapFlatFields item source) "copyright" = some (.list [c])) := by
  refine ⟨?_, ?_, ?_, ?_⟩ <;>
    · simp (disch := decide) only [wrapFlatFields, popD, objGet_objSet_ne,
        objGet_objPop_ne, objGet_objSet_self]
      exact ⟨_, rfl⟩

/-- When no trigger field is truthy the third block is the identity. -/
theorem buildPublicationInfo_false (item : Record)
    (h : has_publication_info item = false) :
    buildPublicationInfo item = .ok item := by
  simp [buildPublicationInfo, h, except_pure_eq]

/-- The third block only touches the journal keys and `publication_info`. -/
theorem buildPublicationInfo_get (item r' : Record) (k : String)
    (hok : buildPublicationInfo item = .ok r')
    (hk : k ∉ journalKeys) (hp : k ≠ "publication_info") :
    objGet r' k = objGet item k := by
  simp only [journalKeys, List.mem_cons, List.not_mem_nil, or_false, not_or] at hk
  obtain ⟨h1, h2, h3, h4, h5, h6, h7, h8, h9, h10⟩ := hk
  by_cases ht : has_publication_info item
  · simp only [buildPublicationInfo, ht, if_true, popD] at hok
    split at hok
    · rcases hpy : pyInt ((objGet (objPop (objPop (objPop (objPop (objPop (objPop
        (objPop (objPop (objPop item "journal_title") "journal_volume")
        "journal_issue") "journal_artid") "journal_fpage") "journal_lpage")
        "journal_doctype") "pubinfo_freetext") "pubinfo_material")
        "journal_year").getD (.str "")) with y | y
      · rw [hpy, except_bind_error] at hok
        exact absurd hok (by simp)
      · rw [hpy, except_bind_ok] at hok
        simp only [except_pure_eq, Except.ok.injEq] at hok
        subst hok
        rw [objGet_objSet_ne _ _ _ _ hp]
        simp (disch := assumption) only [objGet_objPop_ne]
    · simp only [except_pure_eq, Except.ok.injEq] at hok
      subst hok
      rw [objGet_objSet_ne _ _ _ _ hp]
      simp (disch := assumption) only [objGet_objPop_ne]
  · rw [buildPublicationInfo_false item (by simpa using ht)] at hok
    simp only [Except.ok.injEq] at hok
    subst hok
    rfl

/-- The nine pops of the third block leave `journal_year` untouched. -/
theorem ninePops_journal_year (item : Record) :
    objGet (objPop (objPop (objPop (objPop (objPop (objPop (objPop (objPop
      (objPop item "journal_title") "journal_volume") "journal_issue")
      "journal_artid") "journal_fpage") "journal_lpage") "journal_doctype")
      "pubinfo_freetext") "pubinfo_material") "journal_year" =
    objGet item "journal_year" := by
  simp (disch := decide) only [objGet_objPop_ne]

/-- When a trigger field is truthy, a successful third block yields a
single-element `publication_info` list holding one dict, and that dict has no
`year` key when `journal_year` was not truthy. -/
theorem buildPublicationInfo_true_pubinfo (item r' : Record)
    (hok : buildPublicationInfo item = .ok r')
    (ht : has_publication_info item = true) :
    ∃ fs, objGet r' "publication_info" = some (.list [.obj fs]) ∧
      (truthy (objGet item "journal_year") = false → objGet fs "year" = none) := by
  simp only [buildPublicationInfo, ht, if_true, popD, ninePops_journal_year] at hok
  split at hok
  case isTrue hy =>
    rcases hpy : pyInt ((objGet item "journal_year").getD (.str "")) with y | y
    · rw [hpy, except_bind_error] at hok
      exact absurd hok (by simp)
    · rw [hpy, except_bind_ok] at hok
      simp only [except_pure_eq, Except.ok.injEq] at hok
      subst hok
      refine ⟨_, objGet_objSet_self _ _ _, fun hfalse => ?_⟩
      rw [hy] at hfalse
      exact absurd hfalse (by simp)
  case isFalse hy =>
    simp only [except_pure_eq, Except.ok.injEq] at hok
    subst hok
    exact ⟨_, objGet_objSet_self _ _ _, fun _ => by simp [objGet]⟩

/-- When `journal_year` is not truthy the third block cannot fail. -/
theorem buildPublicationInfo_ok_of_yearFalse (item : Record)
    (hy : truthy (objGet item "journal_year") = false) :
    ∃ r', buildPublicationInfo item = .ok r' := by
  rcases hres : buildPublicationInfo item with e | r'
  · exfalso
    by_cases ht : has_publication_info item
    · simp only [buildPublicationInfo, ht, if_true, popD, ninePops_journal_year,
        hy] at hres
      simp [except_pure_eq] at hres
    · rw [buildPublicationInfo_false item (by simpa using ht)] at hres
      cases hres
  · exact ⟨r', rfl⟩

/-- When `journal_year` is truthy but unparseable the third block raises
ValueError. -/
theorem buildPublicationInfo_valueError (item : Record)
    (ht : has_publication_info item = true)
    (hy : truthy (objGet item "journal_year") = true)
    (hparse : pyInt ((objGet item "journal_year").getD (.str "")) =
      .error Err.valueError) :
    buildPublicationInfo item = .error Err.valueError := by
  simp only [buildPublicationInfo, ht, if_true, popD, ninePops_journal_year, hy,
    if_true, hparse, except_bind_error]

/-- A successful normalization decomposes into its three fallible stages. -/
theorem normalize_decompose (item : Record) (source : String) (r' : Record)
    (hok : normalize_hepcrawl_record item source = .ok r') :
    ∃ item1 item2, mergeRelatedArticleDoi item = .ok item1 ∧
      buildPublicationInfo (wrapFlatFields item1 source) = .ok item2 ∧
      r' = remove_fields item2 journalKeys := by
  unfold normalize_hepcrawl_record at hok
  rcases hm : mergeRelatedArticleDoi item with e | item1
  · rw [hm, except_bind_error] at hok
    cases hok
  · rw [hm, except_bind_ok] at hok
    change (buildPublicationInfo (wrapFlatFields item1 source) >>=
      fun item => pure (remove_fields item journalKeys)) = Except.ok r' at hok
    rcases hb : buildPublicationInfo (wrapFlatFields item1 source) with e | item2
    · rw [hb, except_bind_error] at hok
      cases hok
    · rw [hb, except_bind_ok] at hok
      simp only [except_pure_eq, Except.ok.injEq] at hok
      exact ⟨item1, item2, rfl, hb, hok.symm⟩

/-- The merge and wrap blocks leave every journal trigger key unchanged. -/
theorem journalKeys_preserved (item item1 : Record) (source : String)
    (hm : mergeRelatedArticleDoi item = .ok item1) (k : String)
    (hk : k ∈ journalKeys) :
    objGet (wrapFlatFields item1 source) k = objGet item k := by
  fin_cases hk <;>
    rw [wrapFlatFields_get _ _ _ (by decide),
      mergeRelatedArticleDoi_get _ _ _ hm (by decide) (by decide)]

/-- `_has_publication_info` gives the same answer after the merge and wrap
blocks as on the original record. -/
theorem has_publication_info_preserved (item item1 : Record) (source : String)
    (hm : mergeRelatedArticleDoi item = .ok item1) :
    has_publication_info (wrapFlatFields item1 source) =
      has_publication_info item := by
  unfold has_publication_info
  rw [journalKeys_preserved item item1 source hm "pubinfo_freetext" (by decide),
    journalKeys_preserved item item1 source hm "journal_volume" (by decide),
    journalKeys_preserved item item1 source hm "journal_title" (by decide),
    journalKeys_preserved item item1 source hm "journal_year" (by decide),
    journalKeys_preserved item item1 source hm "journal_issue" (by decide),
    journalKeys_preserved item item1 source hm "journal_fpage" (by decide),
    journalKeys_preserved item item1 source hm "journal_lpage" (by decide),
    journalKeys_preserved item item1 source hm "journal_artid" (by decide),
    journalKeys_preserved item item1 source hm "journal_doctype" (by decide)]

theorem normalize_eval_mergeError (item : Record) (source : String) (e : Err)
    (hm : mergeRelatedArticleDoi item = .error e) :
    normalize_hepcrawl_record item source = .error e := by
  unfold normalize_hepcrawl_record
  rw [hm, except_bind_error]

theorem normalize_eval_buildError (item item1 : Record) (source : String) (e : Err)
    (hm : mergeRelatedArticleDoi item = .ok item1)
    (hb : buildPublicationInfo (wrapFlatFields item1 source) = .error e) :
    normalize_hepcrawl_record item source = .error e := by
  unfold normalize_hepcrawl_record
  rw [hm, except_bind_ok]
  change (buildPublicationInfo (wrapFlatFields item1 source) >>=
    fun item => pure (remove_fields item journalKeys)) = _
  rw [hb, except_bind_error]

theorem normalize_eval_ok (item item1 r2 : Record) (source : String)
    (hm : mergeRelatedArticleDoi item = .ok item1)
    (hb : buildPublicationInfo (wrapFlatFields item1 source) = .ok r2) :
    normalize_hepcrawl_record item source = .ok (remove_fields r2 journalKeys) := by
  unfold normalize_hepcrawl_record
  rw [hm, except_bind_ok]
  change (buildPublicationInfo (wrapFlatFields item1 source) >>=
    fun item => pure (remove_fields item journalKeys)) = _
  rw [hb, except_bind_ok]
  rfl

/-! ## Claim theorems about the Field Normalizer -/

/-- C4: for every harvest record (one not already carrying a
`publication_info` key), after successful normalization the
`publication_info` key is present — as a single-element list — if and only if
at least one of the nine trigger fields was truthy before normalization. -/
theorem publication_info_presence_iff (item : Record) (source : String)
    (r' : Record) (hok : normalize_hepcrawl_record item source = .ok r')
    (hno : objGet item "publication_info" = none) :
    (∃ v, objGet r' "publication_info" = some (.list [v])) ↔
      has_publication_info item = true := by
  obtain ⟨item1, item2, hm, hb, hr⟩ := normalize_decompose item source r' hok
  subst hr
  have hrm : objGet (remove_fields item2 journalKeys) "publication_info" =
      objGet item2 "publication_info" := by
    rw [objGet_remove_fields, if_neg (by decide)]
  constructor
  · rintro ⟨v, hv⟩
    by_contra hfalse
    have ht : has_publication_info item = false := by
      cases h : has_publication_info item
      · rfl
      · exact absurd h hfalse
    have ht1 : has_publication_info (wrapFlatFields item1 source) = false := by
      rw [has_publication_info_preserved item item1 source hm]
      exact ht
    have hid := buildPublicationInfo_false _ ht1
    rw [hid] at hb
    injection hb with hb
    rw [hrm, ← hb, wrapFlatFields_get _ _ _ (by decide),
      mergeRelatedArticleDoi_get _ _ _ hm (by decide) (by decide), hno] at hv
    cases hv
  · intro ht
    have ht1 : has_publication_info (wrapFlatFields item1 source) = true := by
      rw [has_publication_info_preserved item item1 source hm]
      exact ht
    obtain ⟨fs, hfs, _⟩ := buildPublicationInfo_true_pubinfo _ _ hb ht1
    exact ⟨.obj fs, by rw [hrm, hfs]⟩

/-- C5: after successful normalization every record carries exactly one
`titles`, `abstracts`, `imprints` and `copyright` entry, each a
single-element list. -/
theorem normalized_singletons (item : Record) (source : String) (r' : Record)
    (hok : normalize_hepcrawl_record item source = .ok r') :
    (∃ t, objGet r' "titles" = some (.list [t])) ∧
    (∃ a, objGet r' "abstracts" = some (.list [a])) ∧
    (∃ i, objGet r' "imprints" = some (.list [i])) ∧
    (∃ c, objGet r' "copyright" = some (.list [c])) := by
  obtain ⟨item1, item2, hm, hb, hr⟩ := normalize_decompose item source r' hok
  subst hr
  obtain ⟨⟨t, htW⟩, ⟨a, haW⟩, ⟨i, hiW⟩, ⟨c, hcW⟩⟩ := wrapFlatFields_sets item1 source
  have key : ∀ k : String, k ∉ journalKeys → k ≠ "publication_info" →
      objGet (remove_fields item2 journalKeys) k =
        objGet (wrapFlatFields item1 source) k := by
    intro k h1 h2
    rw [objGet_remove_fields, if_neg h1, buildPublicationInfo_get _ _ _ hb h1 h2]
  exact ⟨⟨t, by rw [key _ (by decide) (by decide), htW]⟩,
         ⟨a, by rw [key _ (by decide) (by decide), haW]⟩,
         ⟨i, by rw [key _ (by decide) (by decide), hiW]⟩,
         ⟨c, by rw [key _ (by decide) (by decide), hcW]⟩⟩

/-- C8: the legacy `related_article_doi` merge requires `dois` to already
exist — when it is absent normalization fails with `KeyError('dois')`, and
when both are lists the elements are appended to `dois` and the legacy key is
removed. -/
theorem related_article_doi_requires_dois (item : Record) (source : String) :
    ((objGet item "related_article_doi").isSome →
      objGet item "dois" = none →
      normalize_hepcrawl_record item source = .error (.keyError "dois")) ∧
    (∀ ds rs r', objGet item "dois" = some (.list ds) →
      objGet item "related_article_doi" = some (.list rs) →
      normalize_hepcrawl_record item source = .ok r' →
      objGet r' "dois" = some (.list (ds ++ rs)) ∧
        objGet r' "related_article_doi" = none) := by
  constructor
  · intro hrad hdois
    exact normalize_eval_mergeError item source _
      (mergeRelatedArticleDoi_keyError item hrad hdois)
  · intro ds rs r' hdois hrad hok
    obtain ⟨item1, item2, hm, hb, hr⟩ := normalize_decompose item source r' hok
    subst hr
    rw [mergeRelatedArticleDoi_lists item ds rs hdois hrad] at hm
    injection hm with hm
    have key : ∀ k : String, k ∉ journalKeys → k ≠ "publication_info" →
        objGet (remove_fields item2 journalKeys) k =
          objGet (wrapFlatFields item1 source) k := by
      intro k h1 h2
      rw [objGet_remove_fields, if_neg h1, buildPublicationInfo_get _ _ _ hb h1 h2]
    constructor
    · rw [key _ (by decide) (by decide), wrapFlatFields_get _ _ _ (by decide),
        ← hm, objGet_objSet_self]
    · rw [key _ (by decide) (by decide), wrapFlatFields_get _ _ _ (by decide),
        ← hm, objGet_objSet_ne _ _ _ _ (by decide), objGet_objPop_self]

/-- C1 counterexample: a record whose `journal_year` is present and truthy
but not parseable as an integer makes normalization fail with ValueError —
normalization CAN fail because of an unparseable publication year. -/
theorem unparseable_year_raises :
    normalize_hepcrawl_record [("journal_year", Val.str "not-a-year")] "arXiv" =
      .error Err.valueError := by
  rfl

/-- C1 amended: when `journal_year` is absent or falsy, the `year` sub-field
is omitted and normalization never raises ValueError; but when
`journal_year` is a truthy string that does not parse as an integer,
normalization raises ValueError. -/
theorem journal_year_parse_behaviour (item : Record) (source : String) :
    (truthy (objGet item "journal_year") = false →
      normalize_hepcrawl_record item source ≠ .error Err.valueError ∧
      (∀ r' fs, objGet item "publication_info" = none →
        normalize_hepcrawl_record item source = .ok r' →
        objGet r' "publication_info" = some (.list [.obj fs]) →
        objGet fs "year" = none)) ∧
    (∀ s, objGet item "journal_year" = some (.str s) → s ≠ "" →
      parseIntStr s = none → objGet item "related_article_doi" = none →
      normalize_hepcrawl_record item source = .error Err.valueError) := by
  constructor
  · intro hy
    constructor
    · rcases hm : mergeRelatedArticleDoi item with e | item1
      · rw [normalize_eval_mergeError item source e hm]
        intro hcontra
        injection hcontra with he
        exact mergeRelatedArticleDoi_no_valueError item (he ▸ hm)
      · have hy1 : truthy (objGet (wrapFlatFields item1 source) "journal_year")
            = false := by
          rw [journalKeys_preserved item item1 source hm "journal_year" (by decide)]
          exact hy
        obtain ⟨r2, hb⟩ := buildPublicationInfo_ok_of_yearFalse _ hy1
        rw [normalize_eval_ok item item1 r2 source hm hb]
        intro hcontra
        cases hcontra
    · intro r' fs hno hok hpub
      obtain ⟨item1, item2, hm, hb, hr⟩ := normalize_decompose item source r' hok
      subst hr
      have hrm : objGet (remove_fields item2 journalKeys) "publication_info" =
          objGet item2 "publication_info" := by
        rw [objGet_remove_fields, if_neg (by decide)]
      cases ht : has_publication_info (wrapFlatFields item1 source)
      · have hid := buildPublicationInfo_false _ ht
        rw [hid] at hb
        injection hb with hb
        rw [hrm, ← hb, wrapFlatFields_get _ _ _ (by decide),
          mergeRelatedArticleDoi_get _ _ _ hm (by decide) (by decide), hno] at hpub
        cases hpub
      · obtain ⟨fs2, hfs2, hyear⟩ := buildPublicationInfo_true_pubinfo _ _ hb ht
        have hy1 : truthy (objGet (wrapFlatFields item1 source) "journal_year")
            = false := by
          rw [journalKeys_preserved item item1 source hm "journal_year" (by decide)]
          exact hy
        rw [hrm, hfs2] at hpub
        simp only [Option.some.injEq, Val.list.injEq, List.cons.injEq,
          Val.obj.injEq, and_true] at hpub
        rw [← hpub]
        exact hyear hy1
  · intro s hjy hs hparse hrad
    have hm := mergeRelatedArticleDoi_absent item hrad
    have hy : truthy (objGet item "journal_year") = true := by
      rw [hjy]
      simpa [truthy] using hs
    have ht : has_publication_info item = true := by
      simp [has_publication_info, hy]
    have ht1 : has_publication_info (wrapFlatFields item source) = true := by
      rw [has_publication_info_preserved item item source hm]
      exact ht
    have hy1 : truthy (objGet (wrapFlatFields item source) "journal_year")
        = true := by
      rw [journalKeys_preserved item item source hm "journal_year" (by decide)]
      exact hy
    have hparse1 : pyInt ((objGet (wrapFlatFields item source)
        "journal_year").getD (.str "")) = .error Err.valueError := by
      rw [journalKeys_preserved item item source hm "journal_year" (by decide), hjy]
      simp [pyInt, hparse, except_throw_eq]
    exact normalize_eval_buildError item item source _ hm
      (buildPublicationInfo_valueError _ ht1 hy1 hparse1)

/-- C4 witness: a record whose only field is a truthy `journal_title`
normalizes with a single-element `publication_info` list present. -/
theorem publication_info_presence_iff_witness :
    (∃ v, objGet
      [("titles", Val.list [Val.obj [("title", Val.str ""),
        ("subtitle", Val.str ""), ("source", Val.str "arXiv")]]),
       ("abstracts", Val.list [Val.obj [("value", Val.str ""),
        ("source", Val.str "arXiv")]]),
       ("imprints", Val.list [Val.obj [("date", Val.str "")]]),
       ("copyright", Val.list [Val.obj [("holder", Val.str ""),
        ("year", Val.str ""), ("statement", Val.str ""),
        ("material", Val.str "")]]),
       ("publication_info", Val.list [Val.obj
        [("journal_title", Val.str "JHEP"), ("journal_volume", Val.str ""),
         ("journal_issue", Val.str ""), ("artid", Val.str ""),
         ("page_start", Val.str ""), ("page_end", Val.str ""),
         ("note", Val.str ""), ("pubinfo_freetext", Val.str ""),
         ("pubinfo_material", Val.str "")]])]
      "publication_info" = some (.list [v])) ↔
      has_publication_info [("journal_title", Val.str "JHEP")] = true :=
  publication_info_presence_iff [("journal_title", Val.str "JHEP")] "arXiv" _
    rfl rfl

/-- C5 witness: even the empty harvest record normalizes with single-element
`titles`, `abstracts`, `imprints` and `copyright` lists. -/
theorem normalized_singletons_witness :
    (∃ t, objGet
      [("titles", Val.list [Val.obj [("title", Val.str ""),
        ("subtitle", Val.str ""), ("source", Val.str "arXiv")]]),
       ("abstracts", Val.list [Val.obj [("value", Val.str ""),
        ("source", Val.str "arXiv")]]),
       ("imprints", Val.list [Val.obj [("date", Val.str "")]]),
       ("copyright", Val.list [Val.obj [("holder", Val.str ""),
        ("year", Val.str ""), ("statement", Val.str ""),
        ("material", Val.str "")]])]
      "titles" = some (.list [t])) ∧
    (∃ a, objGet
      [("titles", Val.list [Val.obj [("title", Val.str ""),
        ("subtitle", Val.str ""), ("source", Val.str "arXiv")]]),
       ("abstracts", Val.list [Val.obj [("value", Val.str ""),
        ("source", Val.str "arXiv")]]),
       ("imprints", Val.list [Val.obj [("date", Val.str "")]]),
       ("copyright", Val.list [Val.obj [("holder", Val.str ""),
        ("year", Val.str ""), ("statement", Val.str ""),
        ("material", Val.str "")]])]
      "abstracts" = some (.list [a])) ∧
    (∃ i, objGet
      [("titles", Val.list [Val.obj [("title", Val.str ""),
        ("subtitle", Val.str ""), ("source", Val.str "arXiv")]]),
       ("abstracts", Val.list [Val.obj [("value", Val.str ""),
        ("source", Val.str "arXiv")]]),
       ("imprints", Val.list [Val.obj [("date", Val.str "")]]),
       ("copyright", Val.list [Val.obj [("holder", Val.str ""),
        ("year", Val.str ""), ("statement", Val.str ""),
        ("material", Val.str "")]])]
      "imprints" = some (.list [i])) ∧
    (∃ c, objGet
      [("titles", Val.list [Val.obj [("title", Val.str ""),
        ("subtitle", Val.str ""), ("source", Val.str "arXiv")]]),
       ("abstracts", Val.list [Val.obj [("value", Val.str ""),
        ("source", Val.str "arXiv")]]),
       ("imprints", Val.list [Val.obj [("date", Val.str "")]]),
       ("copyright", Val.list [Val.obj [("holder", Val.str ""),
        ("year", Val.str ""), ("statement", Val.str ""),
        ("material", Val.str "")]])]
      "copyright" = some (.list [c])) :=
  normalized_singletons [] "arXiv" _ rfl

/-- C8 witness: `related_article_doi` without `dois` raises
`KeyError('dois')`, and with a `dois` list present the two are merged and the
legacy key removed. -/
theorem related_article_doi_requires_dois_witness :
    normalize_hepcrawl_record
      [("related_article_doi", Val.list [Val.str "10.1/x"])] "arXiv" =
      .error (.keyError "dois") ∧
    (objGet
      [("dois", Val.list [Val.str "10.2/y", Val.str "10.1/x"]),
       ("titles", Val.list [Val.obj [("title", Val.str ""),
        ("subtitle", Val.str ""), ("source", Val.str "arXiv")]]),
       ("abstracts", Val.list [Val.obj [("value", Val.str ""),
        ("source", Val.str "arXiv")]]),
       ("imprints", Val.list [Val.obj [("date", Val.str "")]]),
       ("copyright", Val.list [Val.obj [("holder", Val.str ""),
        ("year", Val.str ""), ("statement", Val.str ""),
        ("material", Val.str "")]])]
      "dois" = some (.list [Val.str "10.2/y", Val.str "10.1/x"]) ∧
     objGet
      [("dois", Val.list [Val.str "10.2/y", Val.str "10.1/x"]),
       ("titles", Val.list [Val.obj [("title", Val.str ""),
        ("subtitle", Val.str ""), ("source", Val.str "arXiv")]]),
       ("abstracts", Val.list [Val.obj [("value", Val.str ""),
        ("source", Val.str "arXiv")]]),
       ("imprints", Val.list [Val.obj [("date", Val.str "")]]),
       ("copyright", Val.list [Val.obj [("holder", Val.str ""),
        ("year", Val.str ""), ("statement", Val.str ""),
        ("material", Val.str "")]])]
      "related_article_doi" = none) :=
  ⟨(related_article_doi_requires_dois
      [("related_article_doi", Val.list [Val.str "10.1/x"])] "arXiv").1 rfl rfl,
   (related_article_doi_requires_dois
      [("dois", Val.list [Val.str "10.2/y"]),
       ("related_article_doi", Val.list [Val.str "10.1/x"])] "arXiv").2
     [Val.str "10.2/y"] [Val.str "10.1/x"] _ rfl rfl rfl⟩

/-- C1 witness for the amended claim: a falsy `journal_year` never yields
ValueError, a truthy unparseable one does. -/
theorem journal_year_parse_behaviour_witness :
    normalize_hepcrawl_record [] "arXiv" ≠ .error Err.valueError ∧
    normalize_hepcrawl_record [("journal_year", Val.str "twenty")] "arXiv" =
      .error Err.valueError :=
  ⟨((journal_year_parse_behaviour [] "arXiv").1 rfl).1,
   (journal_year_parse_behaviour
      [("journal_year", Val.str "twenty")] "arXiv").2 "twenty" rfl
     (by decide) rfl rfl⟩

/-! ## Claim theorems about the Conversion Dispatcher -/

/-- Shared helper: the dispatch on an unrecognized format tag. -/
theorem dispatchFormat_unknown (record_format : String) (record : Record)
    (record_files : List RecordFile) (source : String)
    (h1 : record_format ≠ "hep") (h2 : record_format ≠ "hepcrawl") :
    dispatchFormat record_format record record_files source =
      .error (.unknownItemFormat ("Unknown ParsedItem::" ++ record_format)) := by
  simp [dispatchFormat, h1, h2, except_throw_eq]

/-- C2 counterexample: the acquisition-source descriptor stored by the
dispatcher carries method `'hepcrawl'`, not `"harvest"`. -/
theorem acquisition_method_is_hepcrawl_not_harvest :
    stampAcquisitionSource [] "arXiv" "2017-05-04T17:49:07" "42" =
      [("acquisition_source", Val.obj
        [("datetime", Val.str "2017-05-04T17:49:07"),
         ("method", Val.str "hepcrawl"),
         ("source", Val.str "arXiv"),
         ("submission_number", Val.str "42")])] ∧
    Val.str "hepcrawl" ≠ Val.str "harvest" :=
  ⟨rfl, by simp⟩

/-- C2 amended: the conversion entry point first stores onto the item's
record, under `acquisition_source` and before branching on the record format,
a descriptor whose method is `'hepcrawl'`, whose date is the processing
timestamp and whose submission_number is the job identifier or the empty
string; the dispatch then runs on the stamped record for every format. -/
theorem item_to_hep_stamps_before_dispatch (item : ParsedItem)
    (source now : String) (scrapy_job : Option String) :
    item_to_hep item source now scrapy_job =
      dispatchFormat item.record_format
        (stampAcquisitionSource item.record source now (scrapy_job.getD ""))
        item.record_files source ∧
    objGet (stampAcquisitionSource item.record source now (scrapy_job.getD ""))
        "acquisition_source" =
      some (mkAcquisitionSourceVal source "hepcrawl" now (scrapy_job.getD "")) :=
  ⟨rfl, objGet_objSet_self _ _ _⟩

/-- C3: an unknown record format makes the conversion entry point fail with
the unknown-format error naming the offending format value; no record is
returned. -/
theorem unknown_format_raises (item : ParsedItem) (source now : String)
    (scrapy_job : Option String)
    (h1 : item.record_format ≠ "hep") (h2 : item.record_format ≠ "hepcrawl") :
    item_to_hep item source now scrapy_job =
      .error (.unknownItemFormat ("Unknown ParsedItem::" ++ item.record_format)) :=
  dispatchFormat_unknown item.record_format _ item.record_files source h1 h2

/-- C3 witness: format `'marcxml'` raises the unknown-format error. -/
theorem unknown_format_raises_witness :
    item_to_hep ⟨[], "marcxml", []⟩ "arXiv" "2017-05-04T17:49:07" none =
      .error (.unknownItemFormat ("Unknown ParsedItem::" ++ "marcxml")) :=
  unknown_format_raises ⟨[], "marcxml", []⟩ "arXiv" "2017-05-04T17:49:07" none
    (by decide) (by decide)

/-- C9: the unknown-format failure is not atomic — the acquisition-source
stamp is written onto the item's record before the format check, so the
record state seen by the dispatch differs from the original record whenever
the stamp was not already there, even though the entry point raises. -/
theorem unknown_format_not_atomic (item : ParsedItem) (source now : String)
    (scrapy_job : Option String)
    (h1 : item.record_format ≠ "hep") (h2 : item.record_format ≠ "hepcrawl")
    (h3 : objGet item.record "acquisition_source" ≠
      some (mkAcquisitionSourceVal source "hepcrawl" now (scrapy_job.getD ""))) :
    item_to_hep item source now scrapy_job =
      .error (.unknownItemFormat ("Unknown ParsedItem::" ++ item.record_format)) ∧
    stampAcquisitionSource item.record source now (scrapy_job.getD "") ≠
      item.record ∧
    objGet (stampAcquisitionSource item.record source now (scrapy_job.getD ""))
        "acquisition_source" =
      some (mkAcquisitionSourceVal source "hepcrawl" now (scrapy_job.getD "")) := by
  refine ⟨dispatchFormat_unknown item.record_format _ item.record_files source h1 h2,
    ?_, objGet_objSet_self _ _ _⟩
  intro heq
  apply h3
  rw [← heq]
  exact objGet_objSet_self _ _ _

/-- C9 witness: for an empty record with format `'marcxml'` the call raises
and the stamped record differs from the original. -/
theorem unknown_format_not_atomic_witness :
    item_to_hep ⟨[], "marcxml", []⟩ "arXiv" "2017-05-04T17:49:07" none =
      .error (.unknownItemFormat ("Unknown ParsedItem::" ++ "marcxml")) ∧
    stampAcquisitionSource [] "arXiv" "2017-05-04T17:49:07" "" ≠ [] ∧
    objGet (stampAcquisitionSource [] "arXiv" "2017-05-04T17:49:07" "")
        "acquisition_source" =
      some (mkAcquisitionSourceVal "arXiv" "hepcrawl" "2017-05-04T17:49:07" "") :=
  unknown_format_not_atomic ⟨[], "marcxml", []⟩ "arXiv" "2017-05-04T17:49:07"
    none (by decide) (by decide) (by simp [objGet])

/-! ## Claim theorems about the File-Attachment Patcher -/

/-- Every fft entry is a dict carrying a string `path`. -/
def fftWellFormed : List Val → Bool
  | [] => true
  | .obj fs :: rest =>
    (match objGet fs "path" with
     | some (.str _) => true
     | _ => false) && fftWellFormed rest
  | _ => false

/-- The patching described by the claim: keep an entry, with its path
replaced by the resolved path, exactly when the basename of its declared path
matches a retrieved file's name; drop it otherwise. -/
def patchFftSpec (fft : List Val) (record_files : List RecordFile) : List Val :=
  fft.filterMap fun f =>
    match f with
    | .obj fs =>
      match objGet fs "path" with
      | some (.str p) =>
        match recordFilesIndex record_files (basename p) with
        | some newPath => some (.obj (objSet fs "path" (.str newPath)))
        | none => none
      | _ => none
    | _ => none

/-- On well-formed fft lists the source patcher computes exactly the
claim-shaped patching. -/
theorem get_updated_fft_fields_spec (fft : List Val)
    (record_files : List RecordFile) (h : fftWellFormed fft = true) :
    get_updated_fft_fields fft record_files =
      .ok (patchFftSpec fft record_files) := by
  induction fft with
  | nil => rfl
  | cons f rest ih =>
    cases f with
    | obj fs =>
      simp only [fftWellFormed, Bool.and_eq_true] at h
      obtain ⟨hp, hrest⟩ := h
      rcases hg : objGet fs "path" with _ | v
      · rw [hg] at hp
        cases hp
      · cases v with
        | str p =>
          simp only [get_updated_fft_fields, hg, except_bind_ok, except_pure_eq,
            ih hrest]
          rcases hidx : recordFilesIndex record_files (basename p) with _ | newPath <;>
            simp [patchFftSpec, hg, hidx, List.filterMap_cons, except_pure_eq,
              except_bind_ok]
        | int n => rw [hg] at hp; cases hp
        | list l => rw [hg] at hp; cases hp
        | obj o => rw [hg] at hp; cases hp
    | str s => simp [fftWellFormed] at h
    | int n => simp [fftWellFormed] at h
    | list l => simp [fftWellFormed] at h

/-- C7: with no retrieved files `hep_to_hep` returns the record unchanged;
with a non-empty file list and a well-formed `_fft` list, every entry whose
declared path's basename matches a retrieved file's name is kept with its
path replaced by the resolved path, and every entry without a match is
dropped. -/
theorem fft_patching (r : Record) (record_files : List RecordFile)
    (fft : List Val) :
    hep_to_hep r [] = .ok r ∧
    (record_files ≠ [] → objGet r "_fft" = some (.list fft) →
      fftWellFormed fft = true →
      hep_to_hep r record_files =
        .ok (objSet r "_fft" (.list (patchFftSpec fft record_files)))) := by
  constructor
  · rfl
  · intro hne hfft hwf
    unfold hep_to_hep
    rw [if_neg (by simpa using hne)]
    simp only [hfft, except_bind_ok,
      get_updated_fft_fields_spec fft record_files hwf, except_pure_eq]

/-- C7 witness: the spec's matched, unmatched and no-files examples. -/
theorem fft_patching_witness :
    hep_to_hep [("_fft", Val.list [Val.obj [("path", Val.str "/tmp/x/paper.pdf")]])]
        [⟨"paper.pdf", "/store/abc/paper.pdf"⟩] =
      .ok [("_fft", Val.list [Val.obj [("path", Val.str "/store/abc/paper.pdf")]])] ∧
    hep_to_hep [("_fft", Val.list [Val.obj [("path", Val.str "/tmp/x/missing.pdf")]])]
        [⟨"paper.pdf", "/store/abc/paper.pdf"⟩] =
      .ok [("_fft", Val.list [])] ∧
    hep_to_hep [("_fft", Val.list [Val.obj [("path", Val.str "/tmp/x/paper.pdf")]])]
        [] =
      .ok [("_fft", Val.list [Val.obj [("path", Val.str "/tmp/x/paper.pdf")]])] :=
  ⟨(fft_patching [("_fft", Val.list [Val.obj [("path", Val.str "/tmp/x/paper.pdf")]])]
      [⟨"paper.pdf", "/store/abc/paper.pdf"⟩]
      [Val.obj [("path", Val.str "/tmp/x/paper.pdf")]]).2
      (by simp) rfl rfl,
   (fft_patching [("_fft", Val.list [Val.obj [("path", Val.str "/tmp/x/missing.pdf")]])]
      [⟨"paper.pdf", "/store/abc/paper.pdf"⟩]
      [Val.obj [("path", Val.str "/tmp/x/missing.pdf")]]).2
      (by simp) rfl rfl,
   (fft_patching [("_fft", Val.list [Val.obj [("path", Val.str "/tmp/x/paper.pdf")]])]
      [] []).1⟩

/-! ## Claim theorems about the Record Builder Adapter -/

/-- The document type a normalized collection tag yields, if any — the
claim-side characterization of the three document-type branches of the
classification table. -/
def docTypeOfTag (t : String) : Option String :=
  if t == "bookchapter" then some "book chapter"
  else if t == "conferencepaper" then some "conference paper"
  else if t ∈ document_types_list then some t
  else none

/-- One classification step appends exactly the tag's document type (if any)
and ors the `added_doc_type` flag with whether one was yielded. -/
theorem classifyCollection_docTypes (b : Builder) (added : Bool) (t : String) :
    ∃ b', classifyCollection b added (Val.obj [("primary", Val.str t)]) =
        .ok (b', added || (docTypeOfTag (pyLower (pyStrip t))).isSome) ∧
      b'.document_types = b.document_types ++
        (docTypeOfTag (pyLower (pyStrip t))).toList := by
  simp only [classifyCollection, asObjFields, requireKey, objGet, pure_bind,
    beq_self_eq_true, if_true]
  generalize pyLower (pyStrip t) = c
  by_cases h1 : c == "arxiv"
  · cases beq_iff_eq.mp h1
    exact ⟨b, by simp [docTypeOfTag, document_types_list, except_pure_eq],
      by simp [docTypeOfTag, document_types_list]⟩
  by_cases h2 : c == "citeable"
  · cases beq_iff_eq.mp h2
    exact ⟨{ b with citeable := some true },
      by simp [docTypeOfTag, document_types_list, except_pure_eq],
      by simp [docTypeOfTag, document_types_list]⟩
  by_cases h3 : c == "core"
  · cases beq_iff_eq.mp h3
    exact ⟨{ b with core := some true },
      by simp [docTypeOfTag, document_types_list, except_pure_eq],
      by simp [docTypeOfTag, document_types_list]⟩
  by_cases h4 : c == "noncore"
  · cases beq_iff_eq.mp h4
    exact ⟨{ b with core := some false },
      by simp [docTypeOfTag, document_types_list, except_pure_eq],
      by simp [docTypeOfTag, document_types_list]⟩
  by_cases h5 : c == "published"
  · cases beq_iff_eq.mp h5
    exact ⟨{ b with refereed := some true },
      by simp [docTypeOfTag, document_types_list, except_pure_eq],
      by simp [docTypeOfTag, document_types_list]⟩
  by_cases h6 : c == "withdrawn"
  · cases beq_iff_eq.mp h6
    exact ⟨{ b with withdrawn := some true },
      by simp [docTypeOfTag, document_types_list, except_pure_eq],
      by simp [docTypeOfTag, document_types_list]⟩
  by_cases h7 : c ∈ publication_types_list
  · have hd : docTypeOfTag c = none := by
      fin_cases h7 <;> rfl
    exact ⟨{ b with publication_types := b.publication_types ++ [c] },
      by simp [h1, h2, h3, h4, h5, h6, h7, hd, except_pure_eq],
      by simp [hd]⟩
  by_cases h8 : c ∈ special_collections_list
  · have hd : docTypeOfTag c = none := by
      fin_cases h8 <;> rfl
    exact ⟨{ b with special_collections := b.special_collections ++ [pyUpper c] },
      by simp [h1, h2, h3, h4, h5, h6, h7, h8, hd, except_pure_eq],
      by simp [hd]⟩
  by_cases h9 : c == "bookchapter"
  · cases beq_iff_eq.mp h9
    exact ⟨{ b with document_types := b.document_types ++ ["book chapter"] },
      by simp [h7, h8, docTypeOfTag, except_pure_eq] at *,
      by simp [docTypeOfTag]⟩
  by_cases h10 : c == "conferencepaper"
  · cases beq_iff_eq.mp h10
    exact ⟨{ b with document_types := b.document_types ++ ["conference paper"] },
      by simp [h7, h8, docTypeOfTag, except_pure_eq] at *,
      by simp [docTypeOfTag]⟩
  by_cases h11 : c ∈ document_types_list
  · have hd : docTypeOfTag c = some c := by
      fin_cases h11 <;> rfl
    exact ⟨{ b with document_types := b.document_types ++ [c] },
      by simp [h1, h2, h3, h4, h5, h6, h7, h8, h9, h10, h11, hd, except_pure_eq],
      by simp [hd]⟩
  · have hd : docTypeOfTag c = none := by
      simp [docTypeOfTag, h9, h10, h11]
    exact ⟨b,
      by simp [h1, h2, h3, h4, h5, h6, h7, h8, h9, h10, h11, hd, except_pure_eq],
      by simp [hd]⟩

/-- The collections loop appends exactly the document types the tags yield
and ends with `added_doc_type` true exactly when at least one was yielded. -/
theorem classifyCollections_docTypes (ts : List String) (b : Builder)
    (added : Bool) :
    ∃ b', classifyCollections b added
        (ts.map (fun t => Val.obj [("primary", Val.str t)])) =
        .ok (b', added ||
          !(ts.filterMap (fun t => docTypeOfTag (pyLower (pyStrip t)))).isEmpty) ∧
      b'.document_types = b.document_types ++
        ts.filterMap (fun t => docTypeOfTag (pyLower (pyStrip t))) := by
  induction ts generalizing b added with
  | nil => exact ⟨b, by simp [classifyCollections, except_pure_eq], by simp⟩
  | cons t ts ih =>
    obtain ⟨b1, hb1, hd1⟩ := classifyCollection_docTypes b added t
    obtain ⟨b', hb', hd'⟩ :=
      ih b1 (added || (docTypeOfTag (pyLower (pyStrip t))).isSome)
    refine ⟨b', ?_, ?_⟩
    · simp only [List.map_cons, classifyCollections, hb1, except_bind_ok, hb']
      congr 1
      cases hdt : docTypeOfTag (pyLower (pyStrip t)) <;>
        simp [hdt, List.filterMap_cons, Bool.or_assoc]
    · rw [hd', hd1]
      cases hdt : docTypeOfTag (pyLower (pyStrip t)) <;>
        simp [hdt, List.filterMap_cons]

/-- C6: the builder adapter adds the document type `'article'` exactly once,
after the whole collections list has been scanned, if and only if no
collection tag yielded a document type during the scan; in particular
collections `["bookchapter"]` yield document types `["book chapter"]` with no
article fallback. -/
theorem article_fallback (b : Builder) (ts : List String) :
    (∃ b', processCollections b
        (ts.map (fun t => Val.obj [("primary", Val.str t)])) = .ok b' ∧
      b'.document_types = b.document_types ++
        (if (ts.filterMap (fun t => docTypeOfTag (pyLower (pyStrip t)))).isEmpty
         then ["article"]
         else ts.filterMap (fun t => docTypeOfTag (pyLower (pyStrip t))))) ∧
    (∃ b₀, hepcrawl_to_hep
        [("acquisition_source", Val.obj
          [("source", Val.str "arXiv"), ("method", Val.str "hepcrawl"),
           ("datetime", Val.str "2017-05-04T17:49:07"),
           ("submission_number", Val.str "")]),
         ("collections", Val.list [Val.obj [("primary", Val.str "bookchapter")]])]
        = .ok b₀ ∧
      b₀.document_types = ["book chapter"]) := by
  constructor
  · obtain ⟨b', hb', hd'⟩ := classifyCollections_docTypes ts b false
    cases he : (ts.filterMap (fun t => docTypeOfTag (pyLower (pyStrip t)))).isEmpty
    · refine ⟨b', ?_, ?_⟩
      · rw [he] at hb'
        simp only [Bool.not_false, Bool.false_or] at hb'
        simp only [processCollections, hb', except_bind_ok, if_true,
          except_pure_eq]
      · simp [he, hd']
    · refine ⟨{ b' with document_types := b'.document_types ++ ["article"] },
        ?_, ?_⟩
      · rw [he] at hb'
        simp only [Bool.not_true, Bool.or_false] at hb'
        simp only [processCollections, hb', except_bind_ok, Bool.false_eq_true,
          if_false, except_pure_eq]
      · have hnil : ts.filterMap (fun t => docTypeOfTag (pyLower (pyStrip t)))
            = [] := by
          simpa using he
        simp [hd', hnil, he]
  · exact ⟨_, rfl, rfl⟩

/-- C10: the adapter re-applies the acquisition source by direct indexing of
the sub-object's `method`, `datetime`, `source` and `submission_number` keys:
the date is read from the key named `datetime` (never `date`), and a record
whose `acquisition_source` sub-object lacks any of the four keys makes the
adapter fail with a KeyError naming that key instead of passing the value
through as absent. -/
theorem acquisition_source_direct_indexing (fs : List (String × Val)) :
    (objGet fs "source" = none →
      hepcrawl_to_hep [("acquisition_source", Val.obj fs)] =
        .error (.keyError "source")) ∧
    (∀ vs, objGet fs "source" = some vs →
      (objGet fs "method" = none →
        hepcrawl_to_hep [("acquisition_source", Val.obj fs)] =
          .error (.keyError "method")) ∧
      (∀ vm, objGet fs "method" = some vm →
        (objGet fs "datetime" = none →
          hepcrawl_to_hep [("acquisition_source", Val.obj fs)] =
            .error (.keyError "datetime")) ∧
        (∀ vd, objGet fs "datetime" = some vd →
          (objGet fs "submission_number" = none →
            hepcrawl_to_hep [("acquisition_source", Val.obj fs)] =
              .error (.keyError "submission_number")) ∧
          (∀ vn, objGet fs "submission_number" = some vn →
            (hepcrawl_to_hep [("acquisition_source", Val.obj fs)]).map
                Builder.acquisition_source =
              .ok (some (BuilderAcquisitionSource.mk vm vd vs vn)))))) := by
  refine ⟨fun hs => ?_, fun vs hs => ⟨fun hm => ?_, fun vm hm =>
    ⟨fun hd => ?_, fun vd hd => ⟨fun hn => ?_, fun vn hn => ?_⟩⟩⟩⟩
  · simp [hepcrawl_to_hep, requireKey, asObjFields, objGet,
      except_bind_error, except_throw_eq, hs]
  · simp [hepcrawl_to_hep, requireKey, asObjFields, objGet, getListField,
      foldBuilder, pageNr, pubInfoFields, processCollections,
      classifyCollections, pure_bind, except_bind_ok, except_bind_error,
      except_pure_eq, except_throw_eq, hs, hm]
  · simp [hepcrawl_to_hep, requireKey, asObjFields, objGet, getListField,
      foldBuilder, pageNr, pubInfoFields, processCollections,
      classifyCollections, pure_bind, except_bind_ok, except_bind_error,
      except_pure_eq, except_throw_eq, hs, hm, hd]
  · simp [hepcrawl_to_hep, requireKey, asObjFields, objGet, getListField,
      foldBuilder, pageNr, pubInfoFields, processCollections,
      classifyCollections, pure_bind, except_bind_ok, except_bind_error,
      except_pure_eq, except_throw_eq, hs, hm, hd, hn]
  · simp [hepcrawl_to_hep, requireKey, asObjFields, objGet, getListField,
      foldBuilder, pageNr, pubInfoFields, processCollections,
      classifyCollections, pure_bind, except_bind_ok, except_bind_error,
      except_pure_eq, except_throw_eq, hs, hm, hd, hn, Except.map]

/-- C10 witness: a sub-object holding `date` instead of `datetime` fails with
`KeyError('datetime')`; with all four keys present the stored values are read
from `method`, `datetime`, `source` and `submission_number`. -/
theorem acquisition_source_direct_indexing_witness :
    hepcrawl_to_hep [("acquisition_source", Val.obj
      [("source", Val.str "arXiv"), ("method", Val.str "hepcrawl"),
       ("date", Val.str "2017-05-04T17:49:07")])] =
      .error (.keyError "datetime") ∧
    (hepcrawl_to_hep [("acquisition_source", Val.obj
      [("source", Val.str "arXiv"), ("method", Val.str "hepcrawl"),
       ("datetime", Val.str "2017-05-04T17:49:07"),
       ("submission_number", Val.str "42")])]).map Builder.acquisition_source =
      .ok (some (BuilderAcquisitionSource.mk (Val.str "hepcrawl")
        (Val.str "2017-05-04T17:49:07") (Val.str "arXiv") (Val.str "42"))) :=
  ⟨(((acquisition_source_direct_indexing
      [("source", Val.str "arXiv"), ("method", Val.str "hepcrawl"),
       ("date", Val.str "2017-05-04T17:49:07")]).2
      (Val.str "arXiv") rfl).2 (Val.str "hepcrawl") rfl).1 rfl,
   ((((acquisition_source_direct_indexing
      [("source", Val.str "arXiv"), ("method", Val.str "hepcrawl"),
       ("datetime", Val.str "2017-05-04T17:49:07"),
       ("submission_number", Val.str "42")]).2
      (Val.str "arXiv") rfl).2 (Val.str "hepcrawl") rfl).2
      (Val.str "2017-05-04T17:49:07") rfl).2 (Val.str "42") rfl⟩

end Tohep
